import Mathlib

/-!
Verification development for the Zo voice-assistant front-end.

The repository has two script variants:
  * the richer variant (`src/unnamed/part_001`): debounced speech-to-text
    with a backend client and text-to-speech;
  * the simpler variant (`src/script.js`): display-only transcription.

Both are single-threaded, run-to-completion event-handler programs over a
handful of module-level mutable variables.  We embed that mutable state as
a record `St` and each handler as a pure state transformer, translated
line by line from the source.  JS strings are modelled as `List Char`,
`setTimeout`/`clearTimeout` as a stored-handle flag plus a count of live
timers, and acquired media streams / audio contexts as booleans plus
counters of live streams and performed releases.
-/

namespace Zo

/-- JS strings, modelled as character sequences. -/
abbrev Str := List Char

/-- Embed a Lean string literal into the character-sequence model. -/
def str (s : String) : Str := s.data

/-- Whitespace test used by JS String.prototype.trim. -/
def isWS (c : Char) : Bool := c.isWhitespace

/-- JS String.prototype.trim: strip leading and trailing whitespace. -/
def trimStr (s : Str) : Str := (((s.dropWhile isWS).reverse).dropWhile isWS).reverse

/-- One transcript fragment of a recognition result event:
`event.results[i][0].transcript` together with `event.results[i].isFinal`. -/
structure Frag where
  text : Str
  isFinal : Bool
deriving Repr, DecidableEq

/-- The displayed style of one visualizer bar: `scaleY` transform and opacity. -/
structure Bar where
  scale : ℚ
  opacity : ℚ
deriving Repr, DecidableEq

/-- The module-level mutable state of the richer variant
(`src/unnamed/part_001`), plus bookkeeping ground truth that the source
holds implicitly in the browser (live timers, live capture streams,
whether an engine session is running, performed releases). -/
structure St where
  /-- `isListeningForSTT` (line 25). -/
  isListeningForSTT : Bool
  /-- `isVisualizerActive` (line 26). -/
  isVisualizerActive : Bool
  /-- `sttFinalTranscript` (line 27). -/
  sttFinalTranscript : Str
  /-- `sttPauseTimer` holds a handle of a still-pending timeout. -/
  sttPauseTimer : Bool
  /-- Ground truth: number of scheduled timeouts not yet fired or cancelled. -/
  liveTimers : Nat
  /-- `mediaStreamSource` is non-null. -/
  mediaStreamSource : Bool
  /-- `audioContext` is non-null and not closed. -/
  audioContextOpen : Bool
  /-- Ground truth: acquired capture streams whose tracks were not stopped. -/
  liveStreams : Nat
  /-- Ground truth: how many times a stream's tracks were stopped (releases). -/
  stoppedTracks : Nat
  /-- Ground truth: how many times an audio context was closed (releases). -/
  ctxCloses : Nat
  /-- Ground truth: a recognition-engine session is running. -/
  recEngineActive : Bool
  /-- Ground truth: `recognition.stop()` was requested, `onend` pending. -/
  stopRequested : Bool
  /-- The microphone button carries the active class / "stop" label. -/
  buttonActive : Bool
  /-- The microphone button is attached to the main element. -/
  buttonInMain : Bool
  /-- Content shown by `setTranscript`. -/
  transcript : Str
  /-- `speechSynthesis.speaking`. -/
  speaking : Bool
  /-- Texts handed to `fetch` by `sendToBackend`, oldest first. -/
  sends : List Str
  /-- Styles of the visualizer bar elements. -/
  bars : List Bar
  /-- `visualValueCount` (16 on mobile, 32 otherwise; lines 12-19). -/
  visualValueCount : Nat
deriving Repr, DecidableEq

/-- State right after the load handler (lines 400-405): all flags off,
empty buffer, initial status message displayed and spoken. -/
def initN (n : Nat) : St :=
  { isListeningForSTT := false
    isVisualizerActive := false
    sttFinalTranscript := []
    sttPauseTimer := false
    liveTimers := 0
    mediaStreamSource := false
    audioContextOpen := false
    liveStreams := 0
    stoppedTracks := 0
    ctxCloses := 0
    recEngineActive := false
    stopRequested := false
    buttonActive := false
    buttonInMain := true
    transcript := str "Click \"start\" to talk."
    speaking := true
    sends := []
    bars := []
    visualValueCount := n }

/-- `clearTimeout(sttPauseTimer)`: cancels the stored timeout if it is
still pending (cancelling an already-fired or null handle is a no-op). -/
def clearPauseTimer (s : St) : St :=
  if s.sttPauseTimer then
    { s with sttPauseTimer := false, liveTimers := s.liveTimers - 1 }
  else s

/-- `sttPauseTimer = setTimeout(...)`: schedules a new timeout and stores
its handle. -/
def setPauseTimer (s : St) : St :=
  { s with sttPauseTimer := true, liveTimers := s.liveTimers + 1 }

/-- `speakText` (lines 66-86): cancel any ongoing utterance, then speak. -/
def speakText (_t : Str) (s : St) : St :=
  { s with speaking := true }

/-- `setTranscript` (lines 38-45), display only. -/
def setTranscript (t : Str) (s : St) : St :=
  { s with transcript := t }

/-- Synchronous part of `sendToBackend` (lines 95-111): guard against
empty or all-whitespace text, show "Thinking...", and issue the fetch. -/
def sendToBackendSync (text : Str) (s : St) : St :=
  if text = [] ∨ trimStr text = [] then s
  else { s with transcript := str "Thinking...", sends := s.sends ++ [text] }

/-- Outcome of the backend fetch as seen by `sendToBackend`'s continuation:
a transport error, a non-2xx status, or a 2xx response whose JSON body may
or may not carry a "response" field. -/
inductive BackendOutcome
  | transportError
  | httpError
  | ok (field : Option Str)
deriving Repr, DecidableEq

/-- Fallback message for transport and status failures (lines 130-131). -/
def fallbackMsg : Str := str "Sorry, I couldn\x27t connect to the AI."

/-- Soft-failure message for a 2xx reply without a usable "response" field
(lines 124-125). -/
def noValidMsg : Str := str "Sorry, I didn\x27t get a valid response."

/-- Continuation of `sendToBackend` after the fetch settles
(lines 113-132): non-ok status throws into the catch block, a truthy
`result.response` is displayed and spoken, otherwise the distinct
no-valid-response message is used. -/
def resolveBackend (outcome : BackendOutcome) (s : St) : St :=
  match outcome with
  | .transportError => speakText fallbackMsg (setTranscript fallbackMsg s)
  | .httpError => speakText fallbackMsg (setTranscript fallbackMsg s)
  | .ok field =>
    match field with
    | some r =>
      if r ≠ [] then speakText r (setTranscript r s)
      else speakText noValidMsg (setTranscript noValidMsg s)
    | none => speakText noValidMsg (setTranscript noValidMsg s)

/-- `recognition.onstart` (lines 299-311). -/
def onstart (s : St) : St :=
  let s := { s with isListeningForSTT := true, sttFinalTranscript := [] }
  let s := clearPauseTimer s
  let s := if s.speaking then { s with speaking := false } else s
  { s with transcript := str "Listening...", buttonActive := true }

/-- Concatenation of the final fragments' texts of one result event, in
order, with no separator (the loop of lines 320-326, final branch). -/
def finalsOfEvent (frags : List Frag) : Str :=
  frags.foldl (fun acc f => if f.isFinal then acc ++ f.text else acc) []

/-- Concatenation of the non-final fragments' texts of one result event
(the loop of lines 320-326, interim branch). -/
def interimOfEvent (frags : List Frag) : Str :=
  frags.foldl (fun acc f => if f.isFinal then acc else acc ++ f.text) []

/-- `recognition.onresult` (lines 313-344): cancel the pending pause
timer, append the event's final text (plus a space) to the buffer if
non-empty, refresh the display, and schedule a new pause timer. -/
def onresult (frags : List Frag) (s : St) : St :=
  let s := clearPauseTimer s
  let fin := finalsOfEvent frags
  let buf := if fin ≠ [] then s.sttFinalTranscript ++ fin ++ str " "
             else s.sttFinalTranscript
  let s := { s with sttFinalTranscript := buf,
                    transcript := buf ++ interimOfEvent frags }
  setPauseTimer s

/-- The pause-timer callback (lines 337-343): trim the buffer, dispatch it
to the backend when non-empty, then clear the buffer.  Firing consumes the
timer. -/
def pauseTimerFire (s : St) : St :=
  let s := { s with sttPauseTimer := false, liveTimers := s.liveTimers - 1 }
  let textToSend := trimStr s.sttFinalTranscript
  let s := if textToSend ≠ [] then sendToBackendSync textToSend s else s
  { s with sttFinalTranscript := [] }

/-- `stopVisualizer` (lines 255-276, identical to `script.js` 164-185):
stop the stored stream's tracks and disconnect it if present, close the
audio context if open, drop the active flag, hide the bars, and re-attach
the button if it is gone. -/
def stopVisualizer (s : St) : St :=
  let s :=
    if s.mediaStreamSource then
      { s with stoppedTracks := s.stoppedTracks + 1,
               liveStreams := s.liveStreams - 1,
               mediaStreamSource := false }
    else s
  let s :=
    if s.audioContextOpen then
      { s with ctxCloses := s.ctxCloses + 1, audioContextOpen := false }
    else s
  let s := { s with isVisualizerActive := false,
                    bars := s.bars.map (fun _ => { scale := 0, opacity := 0 }) }
  if ¬ s.buttonInMain then { s with buttonInMain := true } else s

/-- `errorMessage` selection inside `recognition.onerror` (lines 353-358). -/
def errorMessage (kind : Str) : Str :=
  if kind = str "no-speech" then str "I didn\x27t hear anything. Please try again."
  else if kind = str "not-allowed" then
    str "Microphone access denied. Please allow it in your browser settings."
  else str "Speech input error. Please try again."

/-- `recognition.onerror` (lines 346-361): clear the timer, drop the
listening flag, reset the button, stop the visualizer, display and speak
an error message. -/
def onerror (kind : Str) (s : St) : St :=
  let s := clearPauseTimer s
  let s := { s with isListeningForSTT := false, buttonActive := false }
  let s := stopVisualizer s
  speakText (errorMessage kind) (setTranscript (errorMessage kind) s)

/-- `recognition.onend` of the richer variant (lines 363-377): drop the
listening flag, clear the timer, flush any remaining trimmed buffer to the
backend, and reset the buffer.  It deliberately does not reset the button
or stop the visualizer (those calls are commented out in the source). -/
def onend (s : St) : St :=
  let s := { s with isListeningForSTT := false }
  let s := clearPauseTimer s
  let textToSend := trimStr s.sttFinalTranscript
  let s := if textToSend ≠ [] then sendToBackendSync textToSend s else s
  { s with sttFinalTranscript := [] }

/-- Success path of `startVisualizer` (lines 199-240), folded to its
completion: guarded by `isVisualizerActive`, it creates the bar elements
with their default visible style, opens an audio context, acquires the
capture stream, stores and connects it, and raises the active flag. -/
def startVisualizerOk (s : St) : St :=
  if s.isVisualizerActive then s
  else
    { s with
      bars := List.replicate s.visualValueCount { scale := 1/2, opacity := 1/4 },
      audioContextOpen := true,
      liveStreams := s.liveStreams + 1,
      mediaStreamSource := true,
      isVisualizerActive := true }

/-- `processVisualizerError` (lines 185-194) followed by the catch-block
button re-attachment (lines 245-248). -/
def processVisualizerError (s : St) : St :=
  let s := { s with isVisualizerActive := false, buttonActive := false }
  let s := speakText (str "Mic Access Denied")
             (setTranscript (str "Mic Access Denied") s)
  if ¬ s.buttonInMain then { s with buttonInMain := true } else s

/-- Synchronous body of `toggleSTTAndVisualizer` (lines 386-395): when
listening it only requests an engine stop (completion is signalled later
by `onend`); otherwise it kicks off visualizer and engine starts. -/
def toggleStopBranch (s : St) : St :=
  { s with stopRequested := true }

/-- Serialized events of the richer variant: each event's handler chain is
run to completion before the next event.  A toggle while not listening is
folded with its successful asynchronous completion (stream acquired,
engine session begun, `onstart` run); `ended` covers a user-requested
stop; `error` covers an engine error, after which the browser also fires
`onend`; `startFail` covers a denied microphone request, where the engine
errors with not-allowed and ends without ever having started. -/
inductive Ev
  | toggle
  | startFail
  | result (frags : List Frag)
  | timerFire
  | error (kind : Str)
  | ended
  | backend (outcome : BackendOutcome)

/-- Effect of one serialized event on the state. -/
def stepEv : Ev → St → St
  | .toggle, s =>
    if s.isListeningForSTT then toggleStopBranch s
    else onstart { startVisualizerOk s with recEngineActive := true }
  | .startFail, s => onend (onerror (str "not-allowed") (processVisualizerError s))
  | .result frags, s => onresult frags s
  | .timerFire, s => pauseTimerFire s
  | .error kind, s =>
    onend (onerror kind { s with recEngineActive := false, stopRequested := false })
  | .ended, s => onend { s with recEngineActive := false, stopRequested := false }
  | .backend outcome, s => resolveBackend outcome s

/-- Preconditions under which the browser can deliver each event. -/
def evEnabled : Ev → St → Prop
  | .toggle, _ => True
  | .startFail, s => s.isListeningForSTT = false ∧ s.isVisualizerActive = false
  | .result _, s => s.recEngineActive = true
  | .timerFire, s => s.sttPauseTimer = true
  | .error _, s => s.recEngineActive = true
  | .ended, s => s.recEngineActive = true ∧ s.stopRequested = true
  | .backend _, _ => True

/-- One serialized step. -/
inductive Step : St → St → Prop
  | mk (e : Ev) (s : St) (h : evEnabled e s) : Step s (stepEv e s)

/-- States reachable from the freshly loaded page (any bar count) by
serialized event handling. -/
def Reachable (s : St) : Prop :=
  ∃ n, Relation.ReflTransGen Step (initN n) s

/-- `recognition.onend` of the simpler variant (`src/script.js` lines
244-251): drop the listening flag, show "Ready", reset the button, stop
the visualizer.  It operates on the same module-state shape. -/
def onendS (s : St) : St :=
  let s := { s with isListeningForSTT := false }
  let s := setTranscript (str "Ready") s
  let s := { s with buttonActive := false }
  stopVisualizer s

/-- `recognition.onerror` of the simpler variant (`src/script.js` lines
229-242): drop the listening flag, reset the button, stop the visualizer,
display an error message. -/
def onerrorS (kind : Str) (s : St) : St :=
  let s := { s with isListeningForSTT := false, buttonActive := false }
  let s := stopVisualizer s
  setTranscript (errorMessage kind) s

/-- The `dataMap` object literal of `processFrameForVisualizer`
(`src/unnamed/part_001` lines 163-168, identical in `src/script.js` lines
73-78), as the key-value pairs in source order. -/
def dataMapPairs : List (Nat × Nat) :=
  [(15, 0), (16, 1), (14, 2), (17, 3), (13, 4), (18, 5), (12, 6), (19, 7),
   (11, 8), (20, 9), (10, 10), (21, 11), (9, 12), (22, 13), (8, 14), (23, 15),
   (7, 16), (24, 17), (6, 18), (25, 19), (5, 20), (26, 21), (4, 22), (27, 23),
   (3, 24), (28, 25), (2, 26), (29, 27), (1, 28), (30, 29), (0, 30), (31, 31)]

/-- Lookup `dataMap[i]`. -/
def dataMap (i : Nat) : Nat :=
  ((dataMapPairs.find? (fun p => p.1 = i)).map (fun p => p.2)).getD 0

/-- `processFrameForVisualizer` (`src/unnamed/part_001` lines 161-179,
identical in `src/script.js` lines 71-89): bar `i` shows the sample at
bucket `dataMap[i]`, normalized by 255, with opacity floored at 0.25. -/
def processFrameForVisualizer (n : Nat) (data : List Nat) : List Bar :=
  (List.range n).map fun i =>
    let value : ℚ := (data.getD (dataMap i) 0 : ℚ) / 255
    { scale := value, opacity := max (1/4 : ℚ) value }

/-- One pass of `renderVisualizerFrame` (lines 227-239): while active it
redraws the bars from the current frequency data; on the first pass after
deactivation it draws every bar at scale 0 and opacity 0 once more. -/
def renderVisualizerFrame (active : Bool) (n : Nat) (data : List Nat)
    (bars : List Bar) : List Bar :=
  if active then processFrameForVisualizer n data
  else bars.map (fun _ => { scale := 0, opacity := 0 })

/-- Fine-grained model of the toggle / visualizer-start race.  Unlike the
serialized model, a `startVisualizer` invocation here suspends at
`await getUserMedia` and its continuation runs later, exactly as in the
source: the guard is read before the suspension, and each resolved
acquisition overwrites `mediaStreamSource` and raises the flag. -/
structure AsyncSt where
  listening : Bool
  visualizerActive : Bool
  /-- `startVisualizer` invocations suspended awaiting the microphone. -/
  pendingAcquire : Nat
  /-- Acquired streams whose tracks were not stopped. -/
  liveStreams : Nat
  /-- `mediaStreamSource` is non-null (only this stream can be released). -/
  storedStream : Bool
  /-- `recognition.start()` calls issued. -/
  recStartRequests : Nat
deriving Repr, DecidableEq

/-- Page-load state of the fine-grained model. -/
def asyncInit : AsyncSt :=
  { listening := false, visualizerActive := false, pendingAcquire := 0,
    liveStreams := 0, storedStream := false, recStartRequests := 0 }

/-- Synchronous part of `toggleSTTAndVisualizer` in the fine-grained
model: when not listening, `startVisualizer` runs up to its suspension
point (passing the `isVisualizerActive` guard read at that moment) and
`recognition.start()` is issued. -/
def asyncToggle (s : AsyncSt) : AsyncSt :=
  if s.listening then s
  else
    { s with
      pendingAcquire :=
        if s.visualizerActive then s.pendingAcquire else s.pendingAcquire + 1,
      recStartRequests := s.recStartRequests + 1 }

/-- Resolution of one suspended `getUserMedia`: the continuation of
`startVisualizer` (lines 220-223) stores the new stream, connects it, and
raises the active flag. -/
def asyncAcquireResolve (s : AsyncSt) : AsyncSt :=
  if s.pendingAcquire = 0 then s
  else
    { s with
      pendingAcquire := s.pendingAcquire - 1,
      liveStreams := s.liveStreams + 1,
      storedStream := true,
      visualizerActive := true }

/-- Resource/timer consistency: at most one capture stream is live and it
is exactly the stored one (both mirrored by `isVisualizerActive` and
`mediaStreamSource`/`audioContextOpen`), and at most one pause timer is
live, exactly when a pending handle is stored. -/
def InvR (s : St) : Prop :=
  s.liveStreams = (if s.isVisualizerActive then 1 else 0)
  ∧ s.mediaStreamSource = s.isVisualizerActive
  ∧ s.audioContextOpen = s.isVisualizerActive
  ∧ s.liveTimers = (if s.sttPauseTimer then 1 else 0)

/-- Session-state consistency of the serialized model: the booleans
reflect exactly whether the corresponding subsystem is active, plus the
resource/timer consistency `InvR`. -/
def Inv (s : St) : Prop :=
  s.isListeningForSTT = s.recEngineActive ∧ InvR s

lemma inv_initN (n : Nat) : Inv (initN n) := by
  simp [Inv, InvR, initN]

lemma invR_clearPauseTimer (s : St) (h : InvR s) : InvR (clearPauseTimer s) := by
  obtain ⟨h2, h3, h4, h5⟩ := h
  unfold clearPauseTimer
  split <;> simp_all [InvR]

lemma clearPauseTimer_flags (s : St) :
    (clearPauseTimer s).isListeningForSTT = s.isListeningForSTT
    ∧ (clearPauseTimer s).recEngineActive = s.recEngineActive
    ∧ (clearPauseTimer s).sttFinalTranscript = s.sttFinalTranscript := by
  unfold clearPauseTimer
  split <;> simp

lemma invR_sendToBackendSync (t : Str) (s : St) (h : InvR s) :
    InvR (sendToBackendSync t s) := by
  unfold sendToBackendSync
  split
  · exact h
  · obtain ⟨h2, h3, h4, h5⟩ := h
    exact ⟨h2, h3, h4, h5⟩

lemma sendToBackendSync_flags (t : Str) (s : St) :
    (sendToBackendSync t s).isListeningForSTT = s.isListeningForSTT
    ∧ (sendToBackendSync t s).recEngineActive = s.recEngineActive := by
  unfold sendToBackendSync
  split <;> simp

lemma invR_stopVisualizer (s : St) (h : InvR s) : InvR (stopVisualizer s) := by
  obtain ⟨h2, h3, h4, h5⟩ := h
  unfold stopVisualizer
  dsimp only
  split_ifs <;> simp_all [InvR]

lemma stopVisualizer_flags (s : St) :
    (stopVisualizer s).isListeningForSTT = s.isListeningForSTT
    ∧ (stopVisualizer s).recEngineActive = s.recEngineActive := by
  unfold stopVisualizer
  dsimp only
  split_ifs <;> simp

lemma inv_onend (s : St) (h : InvR s) (hrec : s.recEngineActive = false) :
    Inv (onend s) := by
  obtain ⟨h2, h3, h4, h5⟩ := h
  unfold onend clearPauseTimer sendToBackendSync
  dsimp only
  split_ifs <;> simp_all [Inv, InvR]

lemma inv_onerror (k : Str) (s : St) (h : InvR s)
    (hrec : s.recEngineActive = false) : Inv (onerror k s) := by
  obtain ⟨h2, h3, h4, h5⟩ := h
  unfold onerror speakText setTranscript stopVisualizer clearPauseTimer
  dsimp only
  split_ifs <;> simp_all [Inv, InvR]

lemma onerror_recEngine (k : Str) (s : St) :
    (onerror k s).recEngineActive = s.recEngineActive
    ∧ (onerror k s).isListeningForSTT = false := by
  unfold onerror speakText setTranscript stopVisualizer clearPauseTimer
  dsimp only
  split_ifs <;> simp

lemma inv_onresult (frags : List Frag) (s : St) (h : Inv s) :
    Inv (onresult frags s) := by
  obtain ⟨h1, h2, h3, h4, h5⟩ := h
  unfold onresult setPauseTimer clearPauseTimer
  dsimp only
  split_ifs <;> simp_all [Inv, InvR]

lemma inv_pauseTimerFire (s : St) (h : Inv s) (ht : s.sttPauseTimer = true) :
    Inv (pauseTimerFire s) := by
  obtain ⟨h1, h2, h3, h4, h5⟩ := h
  have hlt : s.liveTimers = 1 := by rw [h5, ht]; simp
  unfold pauseTimerFire sendToBackendSync
  dsimp only
  split_ifs <;> simp_all [Inv, InvR]

lemma inv_startVisualizerOk (s : St) (h : Inv s) :
    Inv (startVisualizerOk s) := by
  obtain ⟨h1, h2, h3, h4, h5⟩ := h
  unfold startVisualizerOk
  split <;> simp_all [Inv, InvR]

lemma inv_onstart (s : St) (h : InvR s) (hrec : s.recEngineActive = true) :
    Inv (onstart s) := by
  obtain ⟨h2, h3, h4, h5⟩ := h
  unfold onstart clearPauseTimer
  dsimp only
  split_ifs <;> simp_all [Inv, InvR]

lemma inv_processVisualizerError (s : St) (h : Inv s)
    (hv : s.isVisualizerActive = false) : Inv (processVisualizerError s) := by
  obtain ⟨h1, h2, h3, h4, h5⟩ := h
  unfold processVisualizerError speakText setTranscript
  dsimp only
  split_ifs <;> simp_all [Inv, InvR]

lemma inv_resolveBackend (o : BackendOutcome) (s : St) (h : Inv s) :
    Inv (resolveBackend o s) := by
  obtain ⟨h1, h2, h3, h4, h5⟩ := h
  cases o with
  | transportError => exact ⟨h1, h2, h3, h4, h5⟩
  | httpError => exact ⟨h1, h2, h3, h4, h5⟩
  | ok field =>
    cases field with
    | none => exact ⟨h1, h2, h3, h4, h5⟩
    | some r =>
      unfold resolveBackend speakText setTranscript
      dsimp only
      split_ifs <;> exact ⟨h1, h2, h3, h4, h5⟩

lemma inv_stepEv (e : Ev) (s : St) (h : Inv s) (he : evEnabled e s) :
    Inv (stepEv e s) := by
  cases e with
  | toggle =>
    unfold stepEv
    dsimp only
    split_ifs with hl
    · exact h
    · exact inv_onstart _ (inv_startVisualizerOk s h).2 rfl
  | startFail =>
    obtain ⟨hl, hv⟩ := he
    have hrec : s.recEngineActive = false := by
      obtain ⟨h1, _⟩ := h
      rw [← h1, hl]
    have h1 := inv_processVisualizerError s h hv
    have hrec1 : (processVisualizerError s).recEngineActive = false := by
      unfold processVisualizerError speakText setTranscript
      dsimp only
      split_ifs <;> simp_all
    have h2 := inv_onerror (str "not-allowed") _ h1.2 hrec1
    have h3 := onerror_recEngine (str "not-allowed") (processVisualizerError s)
    exact inv_onend _ h2.2 (by rw [h3.1, hrec1])
  | result frags => exact inv_onresult frags s h
  | timerFire => exact inv_pauseTimerFire s h he
  | error kind =>
    have h' : InvR { s with recEngineActive := false, stopRequested := false }
      := by
        obtain ⟨h1, h2, h3, h4, h5⟩ := h
        exact ⟨h2, h3, h4, h5⟩
    have h2 := inv_onerror kind _ h' rfl
    have h3 := onerror_recEngine kind
      { s with recEngineActive := false, stopRequested := false }
    exact inv_onend _ h2.2 (by rw [h3.1])
  | ended =>
    have h' : InvR { s with recEngineActive := false, stopRequested := false }
      := by
        obtain ⟨h1, h2, h3, h4, h5⟩ := h
        exact ⟨h2, h3, h4, h5⟩
    exact inv_onend _ h' rfl
  | backend outcome => exact inv_resolveBackend outcome s h

lemma step_inversion {a b : St} (h : Step a b) :
    ∃ e, evEnabled e a ∧ b = stepEv e a := by
  cases h
  rename_i e he
  exact ⟨e, he, rfl⟩

lemma inv_reachable (s : St) (h : Reachable s) : Inv s := by
  obtain ⟨n, h⟩ := h
  induction h with
  | refl => exact inv_initN n
  | tail _ hstep ih =>
    obtain ⟨e, he, rfl⟩ := step_inversion hstep
    exact inv_stepEv e _ ih he

/-- `trimStr` is right-strip composed with left-strip. -/
lemma trimStr_as_rdrop (t : Str) :
    trimStr t = List.rdropWhile isWS (List.dropWhile isWS t) := by
  simp [trimStr, List.rdropWhile]

lemma dropWhile_append_nil {p : Char → Bool} (x y : Str)
    (h : x.dropWhile p = []) : (x ++ y).dropWhile p = y.dropWhile p := by
  induction x with
  | nil => simp
  | cons a l ih =>
    rw [List.cons_append]
    simp only [List.dropWhile_cons] at h ⊢
    by_cases hp : p a = true
    · simp only [hp, if_true] at h ⊢
      exact ih h
    · simp [hp] at h
    
lemma dropWhile_append_ne_nil {p : Char → Bool} (x y : Str)
    (h : x.dropWhile p ≠ []) : (x ++ y).dropWhile p = x.dropWhile p ++ y := by
  induction x with
  | nil => simp at h
  | cons a l ih =>
    rw [List.cons_append]
    simp only [List.dropWhile_cons] at h ⊢
    by_cases hp : p a = true
    · simp only [hp, if_true] at h ⊢
      exact ih h
    · simp [hp]

/-- Trimming ignores one trailing space. -/
lemma trimStr_append_space (x : Str) : trimStr (x ++ str " ") = trimStr x := by
  rw [trimStr_as_rdrop, trimStr_as_rdrop]
  by_cases h : List.dropWhile isWS x = []
  · rw [dropWhile_append_nil x (str " ") h, h]
    simp [str, List.dropWhile, isWS, List.rdropWhile]
  · rw [dropWhile_append_ne_nil x (str " ") h]
    show List.rdropWhile isWS (List.dropWhile isWS x ++ [' ']) = _
    rw [List.rdropWhile_concat_pos]
    decide

lemma length_dropWhile_le' (p : Char → Bool) (l : Str) :
    (l.dropWhile p).length ≤ l.length := by
  induction l with
  | nil => simp
  | cons a l ih =>
    simp only [List.dropWhile_cons]
    by_cases hp : p a = true
    · simp only [hp, if_true, List.length_cons]
      omega
    · simp [hp]

/-- Trimming is idempotent. -/
lemma trimStr_idem (s : Str) : trimStr (trimStr s) = trimStr s := by
  rw [trimStr_as_rdrop, trimStr_as_rdrop]
  have h1 : List.dropWhile isWS (List.dropWhile isWS s) = List.dropWhile isWS s :=
    List.dropWhile_idempotent isWS s
  have h2 : List.dropWhile isWS
      (List.rdropWhile isWS (List.dropWhile isWS s))
      = List.rdropWhile isWS (List.dropWhile isWS s) := by
    rcases hb : List.rdropWhile isWS (List.dropWhile isWS s) with _ | ⟨c, cs⟩
    · simp
    · have hpre := List.rdropWhile_prefix isWS (List.dropWhile isWS s)
      rw [hb] at hpre
      obtain ⟨u, hu⟩ := hpre
      have hc : ¬ isWS c = true := by
        intro hcw
        rw [← hu, List.cons_append, List.dropWhile_cons, if_pos hcw] at h1
        have hlen := length_dropWhile_le' isWS (cs ++ u)
        rw [h1] at hlen
        simp at hlen
      rw [List.dropWhile_cons, if_neg hc]
  rw [h2, List.rdropWhile_idempotent]

/-- Events delivered within one listening session, after `onstart`. -/
inductive SessionEv
  | result (frags : List Frag)
  | fire
  | ended

/-- Handler dispatch for session events. -/
def sessionStep : SessionEv → St → St
  | .result frags, s => onresult frags s
  | .fire, s => pauseTimerFire s
  | .ended, s => onend s

/-- Run a list of session events, oldest first. -/
def runSession (evs : List SessionEv) (s : St) : St :=
  evs.foldl (fun t e => sessionStep e t) s

/-- Buffer transformation and emitted backend sends of one session event,
as a function of the buffer alone. -/
def sessionOut : SessionEv → Str → Str × List Str
  | .result frags, b =>
    (if finalsOfEvent frags ≠ [] then b ++ finalsOfEvent frags ++ str " "
     else b, [])
  | .fire, b => ([], if trimStr b = [] then [] else [trimStr b])
  | .ended, b => ([], if trimStr b = [] then [] else [trimStr b])

/-- Buffer transformation and emitted backend sends of a session-event
list, as a function of the starting buffer alone. -/
def runOut : List SessionEv → Str → Str × List Str
  | [], b => (b, [])
  | e :: rest, b =>
    ((runOut rest (sessionOut e b).1).1,
     (sessionOut e b).2 ++ (runOut rest (sessionOut e b).1).2)

lemma onresult_proj (frags : List Frag) (s : St) :
    (onresult frags s).sends = s.sends
    ∧ (onresult frags s).sttFinalTranscript
      = (if finalsOfEvent frags ≠ [] then
           s.sttFinalTranscript ++ finalsOfEvent frags ++ str " "
         else s.sttFinalTranscript) := by
  unfold onresult setPauseTimer clearPauseTimer
  dsimp only
  split_ifs <;> simp_all

lemma pauseTimerFire_proj (s : St) :
    (pauseTimerFire s).sends
      = s.sends ++ (if trimStr s.sttFinalTranscript = [] then []
                    else [trimStr s.sttFinalTranscript])
    ∧ (pauseTimerFire s).sttFinalTranscript = [] := by
  by_cases h : trimStr s.sttFinalTranscript = [] <;>
    (unfold pauseTimerFire sendToBackendSync
     dsimp only
     split_ifs <;> simp_all [trimStr_idem])

lemma onend_proj (s : St) :
    (onend s).sends
      = s.sends ++ (if trimStr s.sttFinalTranscript = [] then []
                    else [trimStr s.sttFinalTranscript])
    ∧ (onend s).sttFinalTranscript = [] := by
  by_cases h : trimStr s.sttFinalTranscript = [] <;>
    (unfold onend sendToBackendSync clearPauseTimer
     dsimp only
     split_ifs <;> simp_all [trimStr_idem])

lemma sessionStep_proj (e : SessionEv) (s : St) :
    (sessionStep e s).sends = s.sends ++ (sessionOut e s.sttFinalTranscript).2
    ∧ (sessionStep e s).sttFinalTranscript
      = (sessionOut e s.sttFinalTranscript).1 := by
  cases e with
  | result frags =>
    have h := onresult_proj frags s
    simp [sessionStep, sessionOut, h.1, h.2]
  | fire =>
    have h := pauseTimerFire_proj s
    simp [sessionStep, sessionOut, h.1, h.2]
  | ended =>
    have h := onend_proj s
    simp [sessionStep, sessionOut, h.1, h.2]

/-- Simulation: over a session, the backend sends emitted and the final
buffer depend only on the event list and the starting buffer. -/
lemma runSession_proj (evs : List SessionEv) (s : St) :
    (runSession evs s).sends = s.sends ++ (runOut evs s.sttFinalTranscript).2
    ∧ (runSession evs s).sttFinalTranscript
      = (runOut evs s.sttFinalTranscript).1 := by
  induction evs generalizing s with
  | nil => simp [runSession, runOut]
  | cons e rest ih =>
    have hstep := sessionStep_proj e s
    have hrun : runSession (e :: rest) s = runSession rest (sessionStep e s) := by
      simp [runSession]
    have h := ih (sessionStep e s)
    rw [hrun]
    constructor
    · rw [h.1, hstep.1, hstep.2]
      simp [runOut, List.append_assoc]
    · rw [h.2, hstep.2]
      simp [runOut]

/-- Spec-side: the final fragments\x27 texts across a list of result
events, in delivery order. -/
def finalTexts (evs : List (List Frag)) : List Str :=
  (evs.flatten.filter (fun f => f.isFinal)).map (fun f => f.text)

/-- Spec-side, from the specification\x27s words: the concatenation of a
list of texts, space-joined. -/
def spaceJoin : List Str → Str
  | [] => []
  | [t] => t
  | t :: rest => t ++ str " " ++ spaceJoin rest

/-- Code-side: the per-event contributions appended to the buffer by
`onresult` over a list of result events. -/
def chunks : List (List Frag) → Str
  | [] => []
  | e :: rest =>
    (if finalsOfEvent e ≠ [] then finalsOfEvent e ++ str " " else []) ++ chunks rest

/-- Helper: each text followed by one space, concatenated. -/
def joinSp : List Str → Str
  | [] => []
  | t :: rest => t ++ str " " ++ joinSp rest

lemma finalsOfEvent_go (e : List Frag) (acc : Str) :
    e.foldl (fun a f => if f.isFinal then a ++ f.text else a) acc
      = acc ++ ((e.filter (fun f => f.isFinal)).map (fun f => f.text)).flatten := by
  induction e generalizing acc with
  | nil => simp
  | cons f rest ih =>
    by_cases hf : f.isFinal <;> simp [hf, ih, List.append_assoc]

lemma finalsOfEvent_eq (e : List Frag) :
    finalsOfEvent e
      = ((e.filter (fun f => f.isFinal)).map (fun f => f.text)).flatten := by
  simpa [finalsOfEvent] using finalsOfEvent_go e []

lemma runOut_results (evs : List (List Frag)) (b : Str) :
    runOut (evs.map SessionEv.result) b = (b ++ chunks evs, []) := by
  induction evs generalizing b with
  | nil => simp [runOut, chunks]
  | cons e rest ih =>
    simp only [List.map_cons, runOut, sessionOut, chunks, ih]
    split_ifs <;> simp [List.append_assoc]

lemma chunks_eq (evs : List (List Frag))
    (h1 : ∀ e ∈ evs, (e.filter (fun f => f.isFinal)).length ≤ 1)
    (h2 : ∀ e ∈ evs, ∀ f ∈ e, f.isFinal = true → f.text ≠ []) :
    chunks evs = joinSp (finalTexts evs) := by
  induction evs with
  | nil => simp [chunks, finalTexts, joinSp]
  | cons e rest ih =>
    have he1 := h1 e (by simp)
    have ihr := ih (fun x hx => h1 x (by simp [hx]))
      (fun x hx => h2 x (by simp [hx]))
    have hsplit : finalTexts (e :: rest)
        = (e.filter (fun f => f.isFinal)).map (fun f => f.text)
          ++ finalTexts rest := by
      simp [finalTexts]
    rcases hf : e.filter (fun f => f.isFinal) with _ | ⟨f, fs⟩
    · have hcode : finalsOfEvent e = [] := by
        rw [finalsOfEvent_eq, hf]
        rfl
      rw [hsplit, hf]
      simp [chunks, hcode, ihr]
    · have hfs : fs = [] := by
        rw [hf] at he1
        cases fs with
        | nil => rfl
        | cons g gs => simp at he1
      subst hfs
      have hmem : f ∈ e ∧ f.isFinal = true := by
        have : f ∈ e.filter (fun f => f.isFinal) := by
          rw [hf]
          simp
        simpa using List.mem_filter.mp this
      have htext : f.text ≠ [] := h2 e (by simp) f hmem.1 hmem.2
      have hcode : finalsOfEvent e = f.text := by
        rw [finalsOfEvent_eq, hf]
        simp
      rw [hsplit, hf]
      simp [chunks, hcode, htext, ihr, joinSp]

lemma joinSp_eq_spaceJoin (ts : List Str) (h : ts ≠ []) :
    joinSp ts = spaceJoin ts ++ str " " := by
  induction ts with
  | nil => contradiction
  | cons t rest ih =>
    cases rest with
    | nil => simp [joinSp, spaceJoin]
    | cons u us =>
      rw [show joinSp (t :: u :: us) = t ++ str " " ++ joinSp (u :: us)
            from rfl,
          ih (by simp),
          show spaceJoin (t :: u :: us) = t ++ str " " ++ spaceJoin (u :: us)
            from rfl]
      simp [List.append_assoc]

lemma trim_joinSp (ts : List Str) :
    trimStr (joinSp ts) = trimStr (spaceJoin ts) := by
  cases ts with
  | nil => rfl
  | cons t rest =>
    rw [joinSp_eq_spaceJoin (t :: rest) (by simp), trimStr_append_space]

/-- C1 counterexample: a single result event carrying two final fragments
"a" and "b" makes the code dispatch "ab" (the final fragments of one event
are concatenated with no separator), while the claimed space-joined
trimmed concatenation is "a b"; the two differ. -/
theorem c1_space_join_cex :
    (pauseTimerFire (runSession
        ([[{ text := str "a", isFinal := true },
            { text := str "b", isFinal := true }]].map SessionEv.result)
        (initN 32))).sends = [str "ab"]
    ∧ trimStr (spaceJoin (finalTexts
        [[{ text := str "a", isFinal := true },
          { text := str "b", isFinal := true }]])) = str "a b"
    ∧ (str "ab" : Str) ≠ str "a b" := by
  refine ⟨?_, ?_, ?_⟩ <;> decide

/-- C1 (amended): starting from an empty buffer, over any sequence of
result events in which each event carries at most one final fragment and
final fragments have non-empty text, the utterance dispatched when the
pause timer fires is exactly the final fragments\x27 texts space-joined
and trimmed, sent in a single backend call (and nothing is sent when that
trimmed join is empty). -/
theorem c1_debounced_utterance (s : St) (evs : List (List Frag))
    (hb : s.sttFinalTranscript = [])
    (h1 : ∀ e ∈ evs, (e.filter (fun f => f.isFinal)).length ≤ 1)
    (h2 : ∀ e ∈ evs, ∀ f ∈ e, f.isFinal = true → f.text ≠ []) :
    (pauseTimerFire (runSession (evs.map SessionEv.result) s)).sends
      = s.sends ++ (if trimStr (spaceJoin (finalTexts evs)) = [] then []
                    else [trimStr (spaceJoin (finalTexts evs))]) := by
  obtain ⟨hs, hb2⟩ := runSession_proj (evs.map SessionEv.result) s
  rw [hb, runOut_results evs []] at hs hb2
  dsimp only at hs hb2
  obtain ⟨hf1, _⟩ := pauseTimerFire_proj (runSession (evs.map SessionEv.result) s)
  rw [hf1, hs, hb2, List.nil_append, chunks_eq evs h1 h2, trim_joinSp]
  simp

/-- C1 witness: the claim\x27s own example — a non-final "hello" event,
then a final "hello world" event, then a full quiet period — produces
exactly one backend send of "hello world". -/
theorem c1_debounced_utterance_witness :
    (pauseTimerFire (runSession
        ([[{ text := str "hello", isFinal := false }],
          [{ text := str "hello world", isFinal := true }]].map SessionEv.result)
        (initN 32))).sends = [str "hello world"] := by
  have h := c1_debounced_utterance (initN 32)
    [[{ text := str "hello", isFinal := false }],
     [{ text := str "hello world", isFinal := true }]]
    rfl (by decide) (by decide)
  rw [h]
  decide

/-- C2 counterexample: in the fine-grained interleaving model, a second
toggle delivered before the first toggle\x27s asynchronous start has
resolved re-enters the start path (both guards still read false), and
after both microphone acquisitions resolve there are two live capture
streams — not a consistent idle state, and more than one capture session
is active. -/
theorem c2_double_toggle_cex :
    (asyncAcquireResolve (asyncAcquireResolve
        (asyncToggle (asyncToggle asyncInit)))).liveStreams = 2
    ∧ (asyncAcquireResolve (asyncAcquireResolve
        (asyncToggle (asyncToggle asyncInit)))).visualizerActive = true
    ∧ ¬ ((asyncAcquireResolve (asyncAcquireResolve
        (asyncToggle (asyncToggle asyncInit)))).liveStreams ≤ 1) := by
  refine ⟨?_, ?_, ?_⟩ <;> decide

/-- C2 (amended): under serialized event handling — each toggle\x27s
asynchronous start completing before the next event — every reachable
state has at most one live capture stream, the listening boolean equals
exactly whether a recognition-engine session is active, and the
visualizer boolean equals exactly whether a capture stream is held. -/
theorem c2_session_invariant (s : St) (h : Reachable s) :
    s.liveStreams ≤ 1
    ∧ s.isListeningForSTT = s.recEngineActive
    ∧ s.mediaStreamSource = s.isVisualizerActive
    ∧ s.audioContextOpen = s.isVisualizerActive
    ∧ s.liveStreams = (if s.isVisualizerActive then 1 else 0) := by
  obtain ⟨h1, h2, h3, h4, h5⟩ := inv_reachable s h
  refine ⟨?_, h1, h3, h4, h2⟩
  rw [h2]
  split <;> omega

/-- C2 witness: the state reached by one serialized toggle from the
freshly loaded page satisfies the invariant. -/
theorem c2_session_invariant_witness :
    (stepEv Ev.toggle (initN 32)).liveStreams ≤ 1
    ∧ (stepEv Ev.toggle (initN 32)).isListeningForSTT
      = (stepEv Ev.toggle (initN 32)).recEngineActive
    ∧ (stepEv Ev.toggle (initN 32)).mediaStreamSource
      = (stepEv Ev.toggle (initN 32)).isVisualizerActive
    ∧ (stepEv Ev.toggle (initN 32)).audioContextOpen
      = (stepEv Ev.toggle (initN 32)).isVisualizerActive
    ∧ (stepEv Ev.toggle (initN 32)).liveStreams
      = (if (stepEv Ev.toggle (initN 32)).isVisualizerActive then 1 else 0) :=
  c2_session_invariant (stepEv Ev.toggle (initN 32))
    ⟨32, Relation.ReflTransGen.single (Step.mk Ev.toggle (initN 32) trivial)⟩

/-- C3 counterexample: in the richer variant, the ended callback leaves
the capture source running and the button active (those calls are
commented out there), while the error callback — not the ended callback —
stops the capture source; so stop-side cleanup is neither performed in the
ended callback nor performed only there. -/
theorem c3_cleanup_location_cex :
    (onend { initN 32 with
        isListeningForSTT := true, recEngineActive := true,
        isVisualizerActive := true, mediaStreamSource := true,
        audioContextOpen := true, liveStreams := 1, buttonActive := true }).mediaStreamSource = true
    ∧ (onend { initN 32 with
        isListeningForSTT := true, recEngineActive := true,
        isVisualizerActive := true, mediaStreamSource := true,
        audioContextOpen := true, liveStreams := 1, buttonActive := true }).isVisualizerActive = true
    ∧ (onend { initN 32 with
        isListeningForSTT := true, recEngineActive := true,
        isVisualizerActive := true, mediaStreamSource := true,
        audioContextOpen := true, liveStreams := 1, buttonActive := true }).buttonActive = true
    ∧ (onerror (str "no-speech") { initN 32 with
        isListeningForSTT := true, recEngineActive := true,
        isVisualizerActive := true, mediaStreamSource := true,
        audioContextOpen := true, liveStreams := 1,
        buttonActive := true }).mediaStreamSource = false := by
  refine ⟨?_, ?_, ?_, ?_⟩ <;> decide

/-- C3 (amended): in both variants toggle performs no stop-side cleanup
inline — on a listening state it only requests an engine stop; in the
richer variant the ended callback clears and flushes the transcript buffer
but leaves the capture source, visualizer flag and button untouched, and
stopping the capture source with button reset happens in the error
callback; in the simpler variant the ended callback does stop the capture
source and reset the button. -/
theorem c3_cleanup_paths (s : St) (k : Str) (h : s.isListeningForSTT = true) :
    stepEv Ev.toggle s = { s with stopRequested := true }
    ∧ (onend s).mediaStreamSource = s.mediaStreamSource
    ∧ (onend s).isVisualizerActive = s.isVisualizerActive
    ∧ (onend s).buttonActive = s.buttonActive
    ∧ (onend s).sttFinalTranscript = []
    ∧ (onerror k s).mediaStreamSource = false
    ∧ (onerror k s).isVisualizerActive = false
    ∧ (onerror k s).buttonActive = false
    ∧ (onendS s).mediaStreamSource = false
    ∧ (onendS s).isVisualizerActive = false
    ∧ (onendS s).buttonActive = false := by
  refine ⟨?_, ?_, ?_, ?_, (onend_proj s).2, ?_, ?_, ?_, ?_, ?_, ?_⟩
  · unfold stepEv
    dsimp only
    rw [if_pos h]
    rfl
  · unfold onend sendToBackendSync clearPauseTimer
    dsimp only
    split_ifs <;> rfl
  · unfold onend sendToBackendSync clearPauseTimer
    dsimp only
    split_ifs <;> rfl
  · unfold onend sendToBackendSync clearPauseTimer
    dsimp only
    split_ifs <;> rfl
  · unfold onerror speakText setTranscript stopVisualizer clearPauseTimer
    dsimp only
    split_ifs <;> simp_all
  · unfold onerror speakText setTranscript stopVisualizer clearPauseTimer
    dsimp only
    split_ifs <;> simp_all
  · unfold onerror speakText setTranscript stopVisualizer clearPauseTimer
    dsimp only
    split_ifs <;> simp_all
  · unfold onendS setTranscript stopVisualizer
    dsimp only
    split_ifs <;> simp_all
  · unfold onendS setTranscript stopVisualizer
    dsimp only
    split_ifs <;> simp_all
  · unfold onendS setTranscript stopVisualizer
    dsimp only
    split_ifs <;> simp_all

/-- C3 witness: on a concrete listening state, toggle only records the
stop request, and the richer variant\x27s ended callback leaves the
capture source exactly as it was. -/
theorem c3_cleanup_paths_witness :
    stepEv Ev.toggle { initN 32 with isListeningForSTT := true }
      = { initN 32 with isListeningForSTT := true, stopRequested := true }
    ∧ (onend { initN 32 with isListeningForSTT := true }).mediaStreamSource
      = ({ initN 32 with isListeningForSTT := true } : St).mediaStreamSource := by
  have h := c3_cleanup_paths { initN 32 with isListeningForSTT := true }
    (str "no-speech") rfl
  exact ⟨h.1, h.2.1⟩

/-- C4: whenever the richer variant\x27s ended callback runs on a state
whose final-transcript buffer trims to something non-empty, the trimmed
buffer is dispatched to the backend (appended to the send log) and the
buffer is reset to empty. -/
theorem c4_onend_flush (s : St) (h : trimStr s.sttFinalTranscript ≠ []) :
    (onend s).sends = s.sends ++ [trimStr s.sttFinalTranscript]
    ∧ (onend s).sttFinalTranscript = [] := by
  have hp := onend_proj s
  rw [if_neg h] at hp
  exact hp

/-- C4 witness: the ended callback firing with buffer "left over" still
results in a backend send of "left over". -/
theorem c4_onend_flush_witness :
    trimStr (str "left over") ≠ []
    ∧ (onend { initN 32 with sttFinalTranscript := str "left over" }).sends
      = [str "left over"] := by
  have h := c4_onend_flush
    { initN 32 with sttFinalTranscript := str "left over" } (by decide)
  refine ⟨by decide, ?_⟩
  rw [h.1]
  decide

/-- C5: the backend client\x27s failure handling — a transport error or a
non-2xx status displays and speaks the fixed fallback message; a 2xx reply
without a usable response field displays and speaks the distinct
no-valid-response message; the two messages differ; and no backend
outcome, nor the synchronous send itself, changes the listening state. -/
theorem c5_backend_failures (s : St) :
    (resolveBackend BackendOutcome.transportError s).transcript = fallbackMsg
    ∧ (resolveBackend BackendOutcome.transportError s).speaking = true
    ∧ (resolveBackend BackendOutcome.httpError s).transcript = fallbackMsg
    ∧ (resolveBackend BackendOutcome.httpError s).speaking = true
    ∧ (resolveBackend (BackendOutcome.ok none) s).transcript = noValidMsg
    ∧ (resolveBackend (BackendOutcome.ok none) s).speaking = true
    ∧ (resolveBackend (BackendOutcome.ok (some [])) s).transcript = noValidMsg
    ∧ fallbackMsg ≠ noValidMsg
    ∧ (∀ o, (resolveBackend o s).isListeningForSTT = s.isListeningForSTT)
    ∧ (∀ u, (sendToBackendSync u s).isListeningForSTT = s.isListeningForSTT)
    := by
  refine ⟨rfl, rfl, rfl, rfl, rfl, rfl, rfl, by decide, ?_, ?_⟩
  · intro o
    cases o with
    | transportError => rfl
    | httpError => rfl
    | ok field =>
      cases field with
      | none => rfl
      | some r =>
        unfold resolveBackend speakText setTranscript
        dsimp only
        split_ifs <;> rfl
  · intro u
    unfold sendToBackendSync
    split_ifs <;> rfl

lemma dataMap_lt : ∀ i : Fin 32, dataMap i.1 < 32 := by decide

/-- The bar-to-bucket permutation as a self-map of the 32-bar index
domain. -/
def dataMapFin (i : Fin 32) : Fin 32 := ⟨dataMap i.1, dataMap_lt i⟩

/-- C6 counterexample: in the reduced 16-bar configuration the code reuses
the same 32-entry table restricted to bar indices 0..15; already at bar
index 1 it reads bucket 28, which lies outside 0..15, so the map used for
the 16-bar configuration is not a self-map of the indices 0..15, hence not
a bijection on them. -/
theorem c6_sixteen_bar_cex : dataMap 1 = 28 ∧ ¬ (dataMap 1 < 16) := by
  refine ⟨?_, ?_⟩ <;> decide

/-- C6 (amended): the table is a bijection on the 32-bar index domain and
realizes the fan-out ordering with the lowest buckets at the central bars
— bar 15 - j reads bucket 2j and bar 16 + j reads bucket 2j + 1; in the
16-bar configuration the restriction of the same table to bar indices
0..15 is injective into 0..31 with bar i reading the even bucket
2(15 - i), not a bijection on 0..15. -/
theorem c6_dataMap_bijection :
    Function.Bijective dataMapFin
    ∧ (∀ j : Fin 16, dataMap (15 - j.1) = 2 * j.1
        ∧ dataMap (16 + j.1) = 2 * j.1 + 1)
    ∧ (∀ i : Fin 16, dataMap i.1 = 2 * (15 - i.1))
    ∧ Function.Injective (fun i : Fin 16 => dataMap i.1) := by
  refine ⟨?_, ?_, ?_, ?_⟩ <;> decide

/-- C7: while active, each rendered bar shows the permuted sample
normalized by 255 as its scale, with opacity floored at 0.25 — so the
opacity is never below the floor (in particular never 0) while active, a
zero-amplitude frame shows every bar at scale 0 and opacity exactly 0.25,
and the deactivation frame resets every bar to scale 0 and opacity 0. -/
theorem c7_frame (n : Nat) (data zdata : List Nat) (bars : List Bar)
    (hz : ∀ v ∈ zdata, v = 0) :
    (∀ i, i < n →
       (processFrameForVisualizer n data).getD i { scale := 0, opacity := 0 }
         = { scale := (data.getD (dataMap i) 0 : ℚ) / 255,
             opacity := max (1/4 : ℚ) ((data.getD (dataMap i) 0 : ℚ) / 255) })
    ∧ (∀ b ∈ processFrameForVisualizer n data,
         (1/4 : ℚ) ≤ b.opacity ∧ 0 < b.opacity)
    ∧ (∀ b ∈ renderVisualizerFrame true n zdata bars,
         b.scale = 0 ∧ b.opacity = 1/4)
    ∧ (∀ b ∈ renderVisualizerFrame false n data bars,
         b.scale = 0 ∧ b.opacity = 0) := by
  have hzero : ∀ j, zdata.getD j 0 = 0 := by
    intro j
    rcases Nat.lt_or_ge j zdata.length with hj | hj
    · rw [List.getD_eq_getElem zdata 0 hj]
      exact hz _ (List.getElem_mem hj)
    · exact List.getD_eq_default zdata 0 hj
  refine ⟨?_, ?_, ?_, ?_⟩
  · intro i hi
    have hlen : i < (processFrameForVisualizer n data).length := by
      simpa [processFrameForVisualizer] using hi
    rw [List.getD_eq_getElem _ _ hlen]
    simp [processFrameForVisualizer]
  · intro b hb
    obtain ⟨i, _, rfl⟩ := List.mem_map.mp hb
    constructor
    · exact le_max_left _ _
    · exact lt_of_lt_of_le (by norm_num) (le_max_left _ _)
  · intro b hb
    unfold renderVisualizerFrame at hb
    rw [if_pos rfl] at hb
    obtain ⟨i, _, rfl⟩ := List.mem_map.mp hb
    refine ⟨?_, ?_⟩
    · dsimp only
      rw [hzero (dataMap i)]
      norm_num
    · dsimp only
      rw [hzero (dataMap i)]
      rw [show ((0 : ℕ) : ℚ) / 255 = 0 by norm_num]
      rw [max_eq_left (by norm_num)]
  · intro b hb
    unfold renderVisualizerFrame at hb
    simp only [Bool.false_eq_true, if_false] at hb
    obtain ⟨x, _, rfl⟩ := List.mem_map.mp hb
    exact ⟨rfl, rfl⟩

/-- C7 witness: on the all-zero 32-bucket frame, every displayed bar has
scale 0 and opacity exactly 0.25. -/
theorem c7_frame_witness :
    (∀ v ∈ List.replicate 32 0, v = 0)
    ∧ (∀ b ∈ renderVisualizerFrame true 32 (List.replicate 32 0) [],
         b.scale = 0 ∧ b.opacity = 1/4) := by
  have h := c7_frame 32 [] (List.replicate 32 0) [] (by decide)
  exact ⟨by decide, h.2.2.1⟩

/-- C8: the teardown path is idempotent — a second `stopVisualizer`
changes nothing (in particular it stops no further tracks and closes no
further audio context), and after one call the stored stream and audio
context are already released and the active flag cleared, so the
already-closed case is a no-op rather than a fault. -/
lemma stopVisualizer_eval (a1 : Bool) (a2 : Bool) (a3 : Str) (a4 : Bool)
    (a5 : Nat) (a6 : Bool) (a7 : Bool) (a8 : Nat) (a9 : Nat) (a10 : Nat)
    (a11 : Bool) (a12 : Bool) (a13 : Bool) (a14 : Bool) (a15 : Str)
    (a16 : Bool) (a17 : List Str) (a18 : List Bar) (a19 : Nat) :
    stopVisualizer ⟨a1, a2, a3, a4, a5, a6, a7, a8, a9, a10, a11, a12, a13,
      a14, a15, a16, a17, a18, a19⟩
    = ⟨a1, false, a3, a4, a5, false, false,
       if a6 then a8 - 1 else a8,
       if a6 then a9 + 1 else a9,
       if a7 then a10 + 1 else a10,
       a11, a12, a13, true, a15, a16, a17,
       a18.map (fun _ => { scale := 0, opacity := 0 }), a19⟩ := by
  unfold stopVisualizer
  dsimp only
  split_ifs <;> simp_all

theorem c8_stop_idempotent (s : St) :
    stopVisualizer (stopVisualizer s) = stopVisualizer s
    ∧ (stopVisualizer (stopVisualizer s)).stoppedTracks
      = (stopVisualizer s).stoppedTracks
    ∧ (stopVisualizer (stopVisualizer s)).ctxCloses
      = (stopVisualizer s).ctxCloses
    ∧ (stopVisualizer s).mediaStreamSource = false
    ∧ (stopVisualizer s).audioContextOpen = false
    ∧ (stopVisualizer s).isVisualizerActive = false := by
  obtain ⟨a1, a2, a3, a4, a5, a6, a7, a8, a9, a10, a11, a12, a13, a14, a15,
    a16, a17, a18, a19⟩ := s
  rw [stopVisualizer_eval, stopVisualizer_eval]
  refine ⟨?_, ?_, ?_, rfl, rfl, rfl⟩ <;> simp [List.map_map]

/-- C10 (implicit): whenever the onstart callback runs, the
final-transcript buffer is reset to empty, the pending pause timer is
cancelled, and in-progress speech synthesis is cancelled; consequently the
backend sends emitted during the following session are a function of the
session\x27s own events alone — no text buffered before the session can
appear in them. -/
theorem c10_onstart_fresh (s : St) (evs : List SessionEv) :
    (onstart s).sttFinalTranscript = []
    ∧ (onstart s).sttPauseTimer = false
    ∧ (onstart s).speaking = false
    ∧ (onstart s).sends = s.sends
    ∧ (runSession evs (onstart s)).sends = s.sends ++ (runOut evs []).2 := by
  have h1 : (onstart s).sttFinalTranscript = [] := by
    unfold onstart clearPauseTimer
    dsimp only
    split_ifs <;> rfl
  have h2 : (onstart s).sttPauseTimer = false := by
    unfold onstart clearPauseTimer
    dsimp only
    split_ifs <;> simp_all
  have h3 : (onstart s).speaking = false := by
    unfold onstart clearPauseTimer
    dsimp only
    split_ifs <;> simp_all
  have h4 : (onstart s).sends = s.sends := by
    unfold onstart clearPauseTimer
    dsimp only
    split_ifs <;> rfl
  have h5 := runSession_proj evs (onstart s)
  refine ⟨h1, h2, h3, h4, ?_⟩
  rw [h5.1, h1, h4]

/-- C9: in every reachable state of the serialized model at most one
pause timer is outstanding, and a result event always cancels the pending
timer before scheduling the new one, leaving exactly one outstanding
timer with its handle stored. -/
theorem c9_single_timer (s : St) (frags : List Frag) (h : Reachable s) :
    s.liveTimers ≤ 1
    ∧ (onresult frags s).sttPauseTimer = true
    ∧ (onresult frags s).liveTimers = 1 := by
  obtain ⟨h1, h2, h3, h4, h5⟩ := inv_reachable s h
  refine ⟨?_, ?_, ?_⟩
  · rw [h5]
    split <;> omega
  · unfold onresult setPauseTimer clearPauseTimer
    dsimp only
  · unfold onresult setPauseTimer clearPauseTimer
    dsimp only
    split_ifs <;> simp_all

/-- C9 witness: the freshly loaded page has no outstanding timer, and a
result event delivered to it leaves exactly one. -/
theorem c9_single_timer_witness :
    (initN 32).liveTimers ≤ 1
    ∧ (onresult [] (initN 32)).sttPauseTimer = true
    ∧ (onresult [] (initN 32)).liveTimers = 1 :=
  c9_single_timer (initN 32) [] ⟨32, Relation.ReflTransGen.refl⟩

end Zo
